import Mathlib

/-!
Verification of the gateway request-mediation layer of the
smart-city-assistant repository.

The embedded code comes from:
* `src/.chat/Lib/site-packages/ibm_watsonx_ai/gateway/gateway.py`
  (`Gateway.__init__`, `_ChatCompletions`, `_Completions`, `_Embeddings`,
  `set_secrets_manager`, `clear_secrets_manager`),
* `src/.chat/Lib/site-packages/ibm_watsonx_ai/gateway/policies.py`
  (`Policies.create`, `Policies.delete`, `Policies.get_details`),
* `src/app.py` (`extract_text_from_file`).

Parts of the library that the repository calls but that are not under
`src/` (`WMLResource._handle_response`, `APIClient` construction) are
modelled from the specification and marked as such in their doc comments.
-/

set_option autoImplicit false

namespace SmartCity

/-- A JSON value, as carried in Python request/response bodies. -/
inductive JsonValue where
  | str (s : String)
  | num (n : Int)
  | bool (b : Bool)
  | null
  | arr (xs : List JsonValue)
  | obj (fields : List (String × JsonValue))

/-- A Python `dict[str, ...]` body, as an insertion-ordered association
list with unique keys (uniqueness holds for every dict the code builds). -/
abbrev JsonDict := List (String × JsonValue)

/-- The keys of a dict, in insertion order. -/
def dictKeys (d : JsonDict) : List String := d.map Prod.fst

/-- Python `d[k]` lookup (as an `Option`): the value at the first — in a
real dict, only — occurrence of the key. -/
def dictGet : JsonDict → String → Option JsonValue
  | [], _ => none
  | (k0, v0) :: rest, k => if k0 = k then some v0 else dictGet rest k

/-- Python `d[k] = v`: overwrite the value in place when the key exists,
otherwise append the pair at the end (insertion order). -/
def dictSet : JsonDict → String → JsonValue → JsonDict
  | [], k, v => [(k, v)]
  | (k0, v0) :: rest, k, v =>
      if k0 = k then (k0, v) :: rest else (k0, v0) :: dictSet rest k v

/-- Python `d.update(**kwargs)`: set each keyword pair in order. -/
def dictUpdate (d : JsonDict) (kwargs : JsonDict) : JsonDict :=
  kwargs.foldl (fun acc p => dictSet acc p.1 p.2) d

/-- The `request_json = {...}; if kwargs: request_json.update(**kwargs)`
pattern shared by every data-carrying `create`/`acreate` method. -/
def withKwargs (base : JsonDict) (kwargs : JsonDict) : JsonDict :=
  if kwargs.isEmpty then base else dictUpdate base kwargs


/-- The HTTP method of a dispatched request. -/
inductive HttpMethod where
  | post
  | get
  | delete
deriving DecidableEq

/-- The URL each gateway operation posts to, as produced by the client
session context (`self._client._href_definitions.get_gateway_*_href()`). -/
structure HrefDefinitions where
  gatewayChatCompletionsHref : String
  gatewayTextCompletionsHref : String
  gatewayEmbeddingsHref : String
  gatewayTenantHref : String
  gatewayPolicyHref : String
deriving DecidableEq

/-- Modelled from the spec: the Credential Context — an authentication
token/key and base address, from which headers and full URLs are derived
(the `Credentials` class is not under `src/`). It is represented by the
data it determines: the derived headers, the resolved endpoint URLs and
the deployment-kind flag. -/
structure Credentials where
  headers : List (String × String)
  hrefs : HrefDefinitions
  icpPlatformSpaces : Bool
deriving DecidableEq

/-- Modelled from the spec: the client session context (`APIClient` is
not under `src/`). It owns the Credential Context data used to build
headers and URLs, the `ICP_PLATFORM_SPACES` deployment flag and the
`verify` setting it was constructed with. -/
structure APIClient where
  headers : List (String × String)
  hrefs : HrefDefinitions
  icpPlatformSpaces : Bool
  verify : Option Bool
deriving DecidableEq

/-- Method `self._client._get_headers()`: the headers derived from the current
Credential Context. -/
def APIClient.getHeaders (c : APIClient) : List (String × String) :=
  c.headers

/-- Modelled from the spec: `APIClient(credentials, verify=verify)` — a
fresh session context built from a credential source and a verify
setting (the `APIClient` constructor is not under `src/`). -/
def APIClient.fromCredentials (c : Credentials) (verify : Option Bool) :
    APIClient :=
  { headers := c.headers
    hrefs := c.hrefs
    icpPlatformSpaces := c.icpPlatformSpaces
    verify := verify }

/-- One HTTP request as handed to the transport: method, resolved URL,
headers and optional JSON body. -/
structure Request where
  method : HttpMethod
  url : String
  headers : List (String × String)
  body : Option JsonDict

/-- Whether a request is dispatched over the blocking transport
(`httpx_client`, used by `create`) or the non-blocking one
(`async_httpx_client`, used by `acreate`). -/
inductive TransportMode where
  | blocking
  | nonblocking
deriving DecidableEq

/-- A dispatched call: the transport mode together with the request. -/
structure Dispatch where
  mode : TransportMode
  request : Request

/-- A received HTTP response: status code, raw body text, and the result
of JSON-parsing the body (`none` when the body is not parseable). -/
structure Response where
  statusCode : Nat
  rawBody : String
  parsedBody : Option JsonValue

/-- The Response Outcome handed back to the caller: a JSON-decoded value,
a success marker for endpoints whose body is ignored, or an error
carrying operation name, expected and actual status and the raw body. -/
inductive Outcome where
  | value (v : Option JsonValue)
  | marker (s : String)
  | apiError (opName : String) (expectedStatus actualStatus : Nat)
      (rawBody : String)

/-- Whether an Outcome took the error path. -/
def Outcome.isError : Outcome → Bool
  | Outcome.apiError _ _ _ _ => true
  | _ => false

/-- Modelled from the spec: `WMLResource._handle_response` (the
`wml_resource` module is not under `src/`). Per the spec, step 5 of the
mediator behaviour: when the received status code matches the Endpoint
Descriptor expected code, a JSON endpoint returns the decoded body and
a non-JSON endpoint returns a success marker; on any mismatch an error
Outcome carrying the operation name, expected and actual status codes
and the raw body is surfaced. -/
def handleResponse (expectedStatus : Nat) (opName : String)
    (response : Response) (jsonResponse : Bool) : Outcome :=
  if response.statusCode = expectedStatus then
    if jsonResponse then Outcome.value response.parsedBody
    else Outcome.marker "SUCCESS"
  else
    Outcome.apiError opName expectedStatus response.statusCode
      response.rawBody

/-- The errors `Gateway.__init__` can raise. -/
inductive GatewayError where
  | invalidMultipleArguments (paramsNamesList : List String) (reason : String)
  | wmlClientError (message : String)
deriving DecidableEq

/-- The constructed Model Gateway: every nested operation group shares
the one client session context stored here. -/
structure Gateway where
  client : APIClient
deriving DecidableEq

/-- Constructor `Gateway.__init__(credentials=..., verify=..., api_client=...)` from
`gateway.py`. When `credentials` is given, `api_client` is rebuilt from
it; with neither argument, `InvalidMultipleArguments` is raised; on CPD
deployments `WMLClientError` is raised. The second component is the list
of HTTP requests dispatched during construction: the constructor body
contains no `httpx_client` call, so it is empty on every path. -/
def Gateway.init (credentials : Option Credentials) (verify : Option Bool)
    (apiClient : Option APIClient) :
    Except GatewayError Gateway × List Request :=
  match credentials with
  | some c =>
      let ac := APIClient.fromCredentials c verify
      if ac.icpPlatformSpaces then
        (Except.error
          (GatewayError.wmlClientError "AI Gateway is not supported on CPD."),
          [])
      else
        (Except.ok { client := ac }, [])
  | none =>
      match apiClient with
      | none =>
          (Except.error
            (GatewayError.invalidMultipleArguments
              ["credentials", "api_client"]
              "None of the arguments were provided."),
            [])
      | some ac =>
          if ac.icpPlatformSpaces then
            (Except.error
              (GatewayError.wmlClientError
                "AI Gateway is not supported on CPD."),
              [])
          else
            (Except.ok { client := ac }, [])

namespace ChatCompletions

/-- The `request_json` built by `_ChatCompletions.create`:
`{"messages": messages, "model": model}` updated with `kwargs`. -/
def createRequestJson (model : String) (messages : JsonValue)
    (kwargs : JsonDict) : JsonDict :=
  withKwargs [("messages", messages), ("model", JsonValue.str model)] kwargs

/-- The request dispatched by `_ChatCompletions.create`: a blocking POST
of the envelope to the chat-completions URL with the current headers. -/
def createDispatch (client : APIClient) (model : String)
    (messages : JsonValue) (kwargs : JsonDict) : Dispatch :=
  { mode := TransportMode.blocking
    request :=
      { method := HttpMethod.post
        url := client.hrefs.gatewayChatCompletionsHref
        headers := client.getHeaders
        body := some (createRequestJson model messages kwargs) } }

/-- Result classification of `_ChatCompletions.create`:
`self._handle_response(200, "chat completion creation", response)`. -/
def createHandle (response : Response) : Outcome :=
  handleResponse 200 "chat completion creation" response true

/-- The `request_json` built by `_ChatCompletions.acreate`. -/
def acreateRequestJson (model : String) (messages : JsonValue)
    (kwargs : JsonDict) : JsonDict :=
  withKwargs [("messages", messages), ("model", JsonValue.str model)] kwargs

/-- The request dispatched by `_ChatCompletions.acreate`: the same POST
over the non-blocking transport (`async_httpx_client`). -/
def acreateDispatch (client : APIClient) (model : String)
    (messages : JsonValue) (kwargs : JsonDict) : Dispatch :=
  { mode := TransportMode.nonblocking
    request :=
      { method := HttpMethod.post
        url := client.hrefs.gatewayChatCompletionsHref
        headers := client.getHeaders
        body := some (acreateRequestJson model messages kwargs) } }

/-- Result classification of `_ChatCompletions.acreate`. -/
def acreateHandle (response : Response) : Outcome :=
  handleResponse 200 "chat completion creation" response true

end ChatCompletions

namespace Completions

/-- The `request_json` built by `_Completions.create`:
`{"prompt": prompt, "model": model}` updated with `kwargs`. -/
def createRequestJson (model : String) (prompt : JsonValue)
    (kwargs : JsonDict) : JsonDict :=
  withKwargs [("prompt", prompt), ("model", JsonValue.str model)] kwargs

/-- The request dispatched by `_Completions.create`. -/
def createDispatch (client : APIClient) (model : String)
    (prompt : JsonValue) (kwargs : JsonDict) : Dispatch :=
  { mode := TransportMode.blocking
    request :=
      { method := HttpMethod.post
        url := client.hrefs.gatewayTextCompletionsHref
        headers := client.getHeaders
        body := some (createRequestJson model prompt kwargs) } }

/-- Result classification of `_Completions.create`:
`self._handle_response(200, "text completion creation", response)`. -/
def createHandle (response : Response) : Outcome :=
  handleResponse 200 "text completion creation" response true

/-- The `request_json` built by `_Completions.acreate`. -/
def acreateRequestJson (model : String) (prompt : JsonValue)
    (kwargs : JsonDict) : JsonDict :=
  withKwargs [("prompt", prompt), ("model", JsonValue.str model)] kwargs

/-- The request dispatched by `_Completions.acreate`. -/
def acreateDispatch (client : APIClient) (model : String)
    (prompt : JsonValue) (kwargs : JsonDict) : Dispatch :=
  { mode := TransportMode.nonblocking
    request :=
      { method := HttpMethod.post
        url := client.hrefs.gatewayTextCompletionsHref
        headers := client.getHeaders
        body := some (acreateRequestJson model prompt kwargs) } }

/-- Result classification of `_Completions.acreate`. -/
def acreateHandle (response : Response) : Outcome :=
  handleResponse 200 "text completion creation" response true

end Completions

namespace Embeddings

/-- The `request_json` built by `_Embeddings.create`:
`{"input": input, "model": model}` updated with `kwargs`. -/
def createRequestJson (model : String) (input : JsonValue)
    (kwargs : JsonDict) : JsonDict :=
  withKwargs [("input", input), ("model", JsonValue.str model)] kwargs

/-- The request dispatched by `_Embeddings.create`. -/
def createDispatch (client : APIClient) (model : String)
    (input : JsonValue) (kwargs : JsonDict) : Dispatch :=
  { mode := TransportMode.blocking
    request :=
      { method := HttpMethod.post
        url := client.hrefs.gatewayEmbeddingsHref
        headers := client.getHeaders
        body := some (createRequestJson model input kwargs) } }

/-- Result classification of `_Embeddings.create`:
`self._handle_response(200, "embedding creation", response)`. -/
def createHandle (response : Response) : Outcome :=
  handleResponse 200 "embedding creation" response true

/-- The `request_json` built by `_Embeddings.acreate`. -/
def acreateRequestJson (model : String) (input : JsonValue)
    (kwargs : JsonDict) : JsonDict :=
  withKwargs [("input", input), ("model", JsonValue.str model)] kwargs

/-- The request dispatched by `_Embeddings.acreate`. -/
def acreateDispatch (client : APIClient) (model : String)
    (input : JsonValue) (kwargs : JsonDict) : Dispatch :=
  { mode := TransportMode.nonblocking
    request :=
      { method := HttpMethod.post
        url := client.hrefs.gatewayEmbeddingsHref
        headers := client.getHeaders
        body := some (acreateRequestJson model input kwargs) } }

/-- Result classification of `_Embeddings.acreate`. -/
def acreateHandle (response : Response) : Outcome :=
  handleResponse 200 "embedding creation" response true

end Embeddings

/-- The default `name` argument of `Gateway.set_secrets_manager`. -/
def defaultGatewayConfigurationName : String :=
  "Watsonx AI Model Gateway configuration"

/-- The request dispatched by `Gateway.set_secrets_manager`: a blocking
POST of `{"name": name, "secrets_manager": secrets_manager}` to the
tenant URL. -/
def Gateway.setSecretsManagerDispatch (client : APIClient)
    (secretsManager : String) (name : String) : Dispatch :=
  { mode := TransportMode.blocking
    request :=
      { method := HttpMethod.post
        url := client.hrefs.gatewayTenantHref
        headers := client.getHeaders
        body := some [("name", JsonValue.str name),
          ("secrets_manager", JsonValue.str secretsManager)] } }

/-- Result classification of `Gateway.set_secrets_manager`:
`self._handle_response(201, "set secrets manager", response)`. -/
def Gateway.setSecretsManagerHandle (response : Response) : Outcome :=
  handleResponse 201 "set secrets manager" response true

/-- The request dispatched by `Gateway.clear_secrets_manager`: a blocking
DELETE on the tenant URL with no body. -/
def Gateway.clearSecretsManagerDispatch (client : APIClient) : Dispatch :=
  { mode := TransportMode.blocking
    request :=
      { method := HttpMethod.delete
        url := client.hrefs.gatewayTenantHref
        headers := client.getHeaders
        body := none } }

/-- Result classification of `Gateway.clear_secrets_manager`:
`self._handle_response(204, "tenant deletion", response, json_response=False)`. -/
def Gateway.clearSecretsManagerHandle (response : Response) : Outcome :=
  handleResponse 204 "tenant deletion" response false

namespace Policies

/-- Python truthiness of the optional `effect` string: `if effect:` is
taken only when `effect` is neither `None` nor the empty string. -/
def effectTruthy : Option String → Bool
  | some e => e != ""
  | none => false

/-- The `request_json` built by `Policies.create`:
`{"action": ..., "resource": ..., "subject": ...}` with `"effect"` set
only when `if effect:` holds. -/
def createRequestJson (action : String) (resource : String)
    (subject : String) (effect : Option String) : JsonDict :=
  let base : JsonDict := [("action", JsonValue.str action),
    ("resource", JsonValue.str resource),
    ("subject", JsonValue.str subject)]
  match effect with
  | some e => if e != "" then dictSet base "effect" (JsonValue.str e) else base
  | none => base

/-- The request dispatched by `Policies.create`: a blocking POST to the
policy URL. -/
def createDispatch (client : APIClient) (action : String)
    (resource : String) (subject : String) (effect : Option String) :
    Dispatch :=
  { mode := TransportMode.blocking
    request :=
      { method := HttpMethod.post
        url := client.hrefs.gatewayPolicyHref
        headers := client.getHeaders
        body := some (createRequestJson action resource subject effect) } }

/-- Result classification of `Policies.create`:
`self._handle_response(204, "policy creation", response)`. -/
def createHandle (response : Response) : Outcome :=
  handleResponse 204 "policy creation" response true

/-- The `request_json` built by `Policies.delete` (same construction as in
`Policies.create`). -/
def deleteRequestJson (action : String) (resource : String)
    (subject : String) (effect : Option String) : JsonDict :=
  let base : JsonDict := [("action", JsonValue.str action),
    ("resource", JsonValue.str resource),
    ("subject", JsonValue.str subject)]
  match effect with
  | some e => if e != "" then dictSet base "effect" (JsonValue.str e) else base
  | none => base

/-- The request dispatched by `Policies.delete`: a blocking DELETE on the
policy URL carrying the envelope as JSON body. -/
def deleteDispatch (client : APIClient) (action : String)
    (resource : String) (subject : String) (effect : Option String) :
    Dispatch :=
  { mode := TransportMode.blocking
    request :=
      { method := HttpMethod.delete
        url := client.hrefs.gatewayPolicyHref
        headers := client.getHeaders
        body := some (deleteRequestJson action resource subject effect) } }

/-- Result classification of `Policies.delete`:
`self._handle_response(204, "policy deletion", response, json_response=False)`. -/
def deleteHandle (response : Response) : Outcome :=
  handleResponse 204 "policy deletion" response false

/-- The request dispatched by `Policies.get_details`: a blocking GET on
the policy URL with no body. -/
def getDetailsDispatch (client : APIClient) : Dispatch :=
  { mode := TransportMode.blocking
    request :=
      { method := HttpMethod.get
        url := client.hrefs.gatewayPolicyHref
        headers := client.getHeaders
        body := none } }

/-- Result classification of `Policies.get_details`:
`self._handle_response(200, "policy listing", response)`. -/
def getDetailsHandle (response : Response) : Outcome :=
  handleResponse 200 "policy listing" response true

end Policies

/-- Lower bound of the second byte of a multi-byte UTF-8 sequence, as a
function of the lead byte (tightened for `E0`/`F0` to exclude overlong
encodings). -/
def utf8SecondLo (lead : Nat) : Nat :=
  if lead = 0xE0 then 0xA0 else if lead = 0xF0 then 0x90 else 0x80

/-- Upper bound of the second byte of a multi-byte UTF-8 sequence, as a
function of the lead byte (tightened for `ED` to exclude surrogates and
for `F4` to stay below `U+110000`). -/
def utf8SecondHi (lead : Nat) : Nat :=
  if lead = 0xED then 0x9F else if lead = 0xF4 then 0x8F else 0xBF

/-- UTF-8 decoding with invalid sequences ignored, the semantics of
Python `bytes.decode("utf-8", errors="ignore")`: well-formed sequences
become their code point, and the bytes of any ill-formed or truncated
sequence are skipped without producing output. The fuel argument only
drives the recursion; it is instantiated with the byte count. -/
def utf8DecodeIgnoreAux : Nat → List Nat → List Char
  | 0, _ => []
  | _ + 1, [] => []
  | fuel + 1, b :: rest =>
    if b < 0x80 then
      Char.ofNat b :: utf8DecodeIgnoreAux fuel rest
    else if b < 0xC2 then
      utf8DecodeIgnoreAux fuel rest
    else if b ≤ 0xDF then
      match rest with
      | [] => []
      | b2 :: rest2 =>
        if 0x80 ≤ b2 ∧ b2 ≤ 0xBF then
          Char.ofNat ((b - 0xC0) * 0x40 + (b2 - 0x80)) ::
            utf8DecodeIgnoreAux fuel rest2
        else
          utf8DecodeIgnoreAux fuel rest
    else if b ≤ 0xEF then
      match rest with
      | [] => []
      | b2 :: rest2 =>
        if utf8SecondLo b ≤ b2 ∧ b2 ≤ utf8SecondHi b then
          match rest2 with
          | [] => []
          | b3 :: rest3 =>
            if 0x80 ≤ b3 ∧ b3 ≤ 0xBF then
              Char.ofNat
                  ((b - 0xE0) * 0x1000 + (b2 - 0x80) * 0x40 + (b3 - 0x80)) ::
                utf8DecodeIgnoreAux fuel rest3
            else
              utf8DecodeIgnoreAux fuel rest2
        else
          utf8DecodeIgnoreAux fuel rest
    else if b ≤ 0xF4 then
      match rest with
      | [] => []
      | b2 :: rest2 =>
        if utf8SecondLo b ≤ b2 ∧ b2 ≤ utf8SecondHi b then
          match rest2 with
          | [] => []
          | b3 :: rest3 =>
            if 0x80 ≤ b3 ∧ b3 ≤ 0xBF then
              match rest3 with
              | [] => []
              | b4 :: rest4 =>
                if 0x80 ≤ b4 ∧ b4 ≤ 0xBF then
                  Char.ofNat
                      ((b - 0xF0) * 0x40000 + (b2 - 0x80) * 0x1000 +
                        (b3 - 0x80) * 0x40 + (b4 - 0x80)) ::
                    utf8DecodeIgnoreAux fuel rest4
                else
                  utf8DecodeIgnoreAux fuel rest3
            else
              utf8DecodeIgnoreAux fuel rest2
        else
          utf8DecodeIgnoreAux fuel rest
    else
      utf8DecodeIgnoreAux fuel rest

/-- Python `bytes.decode("utf-8", errors="ignore")` over a byte list. -/
def utf8DecodeIgnore (bs : List Nat) : String :=
  String.mk (utf8DecodeIgnoreAux bs.length bs)

/-- An uploaded file as `extract_text_from_file` sees it: the declared
content type, the display name, the raw bytes (`getvalue()`), and the
outcome of handing the stream to the PDF parser — `Except.error e` when
`PyPDF2.PdfReader` (or the page iteration) raises with message `e`, and
otherwise the per-page `extract_text()` results, with the empty string
standing for both an empty extraction and a `None` page result (the two
are indistinguishable to the `if page_text:` guard). -/
structure UploadedFile where
  type : String
  name : String
  getvalue : List Nat
  pdfParse : Except String (List String)

/-- Function `extract_text_from_file` from `src/app.py`. The first component is
the returned value (`none` for Python `None`); the second is the list of
messages reported through `st.error`. -/
def extract_text_from_file (uploadedFile : UploadedFile) :
    Option String × List String :=
  if uploadedFile.type = "text/plain" then
    (some (utf8DecodeIgnore uploadedFile.getvalue), [])
  else if uploadedFile.type = "application/pdf" then
    match uploadedFile.pdfParse with
    | Except.ok pages =>
        (some (pages.foldl
          (fun text pageText =>
            if pageText ≠ "" then text ++ pageText else text) ""), [])
    | Except.error e =>
        (none,
          ["Error reading PDF file " ++ uploadedFile.name ++ ": " ++ e])
  else
    (none, [])

@[simp] theorem dictKeys_nil : dictKeys [] = [] := rfl

@[simp] theorem dictKeys_cons (k : String) (v : JsonValue) (rest : JsonDict) :
    dictKeys ((k, v) :: rest) = k :: dictKeys rest := rfl

theorem dictGet_dictSet_self (d : JsonDict) (k : String) (v : JsonValue) :
    dictGet (dictSet d k v) k = some v := by
  induction d with
  | nil => simp [dictSet, dictGet]
  | cons p rest ih =>
      obtain ⟨k0, v0⟩ := p
      by_cases h : k0 = k
      · simp [dictSet, dictGet, h]
      · simp [dictSet, dictGet, h, ih]

theorem dictGet_dictSet_ne (d : JsonDict) (k : String) (v : JsonValue)
    (k1 : String) (hne : k ≠ k1) :
    dictGet (dictSet d k v) k1 = dictGet d k1 := by
  induction d with
  | nil => simp [dictSet, dictGet, hne]
  | cons p rest ih =>
      obtain ⟨k0, v0⟩ := p
      by_cases h : k0 = k
      · subst h
        simp [dictSet, dictGet, hne]
      · simp [dictSet, dictGet, h, ih]

theorem dictKeys_dictSet_not_mem (d : JsonDict) (k : String) (v : JsonValue)
    (hmem : k ∉ dictKeys d) :
    dictKeys (dictSet d k v) = dictKeys d ++ [k] := by
  induction d with
  | nil => simp [dictSet]
  | cons p rest ih =>
      obtain ⟨k0, v0⟩ := p
      rw [dictKeys_cons] at hmem
      simp only [List.mem_cons, not_or] at hmem
      obtain ⟨hne, hmem'⟩ := hmem
      have h : k0 ≠ k := Ne.symm hne
      simp only [dictSet, h, if_false, dictKeys_cons, ih hmem']
      simp

theorem dictGet_dictUpdate_not_mem (d : JsonDict) (kwargs : JsonDict)
    (k : String) (hmem : k ∉ dictKeys kwargs) :
    dictGet (dictUpdate d kwargs) k = dictGet d k := by
  induction kwargs generalizing d with
  | nil => simp [dictUpdate]
  | cons p rest ih =>
      obtain ⟨k0, v0⟩ := p
      rw [dictKeys_cons] at hmem
      simp only [List.mem_cons, not_or] at hmem
      obtain ⟨hne, hmem'⟩ := hmem
      show dictGet (dictUpdate (dictSet d k0 v0) rest) k = dictGet d k
      rw [ih (dictSet d k0 v0) hmem',
        dictGet_dictSet_ne d k0 v0 k (Ne.symm hne)]

theorem dictGet_dictUpdate_mem (d : JsonDict) (kwargs : JsonDict)
    (k : String) (v : JsonValue)
    (hnodup : (dictKeys kwargs).Nodup) (hmem : (k, v) ∈ kwargs) :
    dictGet (dictUpdate d kwargs) k = some v := by
  induction kwargs generalizing d with
  | nil => simp at hmem
  | cons p rest ih =>
      obtain ⟨k0, v0⟩ := p
      rw [dictKeys_cons] at hnodup
      have hk0rest : k0 ∉ dictKeys rest := (List.nodup_cons.mp hnodup).1
      have hnodup' : (dictKeys rest).Nodup := (List.nodup_cons.mp hnodup).2
      rcases List.mem_cons.mp hmem with heq | htail
      · have hk : k = k0 := congrArg Prod.fst heq
        have hv : v = v0 := congrArg Prod.snd heq
        subst hk
        subst hv
        show dictGet (dictUpdate (dictSet d k v) rest) k = some v
        rw [dictGet_dictUpdate_not_mem (dictSet d k v) rest k hk0rest,
          dictGet_dictSet_self]
      · show dictGet (dictUpdate (dictSet d k0 v0) rest) k = some v
        exact ih (dictSet d k0 v0) hnodup' htail

theorem dictKeys_dictUpdate_disjoint (d : JsonDict) (kwargs : JsonDict)
    (hnodup : (dictKeys kwargs).Nodup)
    (hdisj : ∀ k ∈ dictKeys kwargs, k ∉ dictKeys d) :
    dictKeys (dictUpdate d kwargs) = dictKeys d ++ dictKeys kwargs := by
  induction kwargs generalizing d with
  | nil => simp [dictUpdate]
  | cons p rest ih =>
      obtain ⟨k0, v0⟩ := p
      rw [dictKeys_cons] at hnodup
      have hk0rest : k0 ∉ dictKeys rest := (List.nodup_cons.mp hnodup).1
      have hnodup' : (dictKeys rest).Nodup := (List.nodup_cons.mp hnodup).2
      have hk0d : k0 ∉ dictKeys d := hdisj k0 (by simp)
      have hdisj' : ∀ k ∈ dictKeys rest, k ∉ dictKeys (dictSet d k0 v0) := by
        intro k hk
        rw [dictKeys_dictSet_not_mem d k0 v0 hk0d]
        intro hcontra
        rcases List.mem_append.mp hcontra with hind | hsingle
        · exact hdisj k (List.mem_cons_of_mem k0 hk) hind
        · have hkk0 : k = k0 := by simpa using hsingle
          exact hk0rest (hkk0 ▸ hk)
      show dictKeys (dictUpdate (dictSet d k0 v0) rest)
          = dictKeys d ++ dictKeys ((k0, v0) :: rest)
      rw [ih (dictSet d k0 v0) hnodup' hdisj',
        dictKeys_dictSet_not_mem d k0 v0 hk0d]
      simp

theorem withKwargs_eq_dictUpdate (base : JsonDict) (kwargs : JsonDict) :
    withKwargs base kwargs = dictUpdate base kwargs := by
  cases kwargs with
  | nil => simp [withKwargs, dictUpdate]
  | cons p rest => simp [withKwargs, List.isEmpty]

theorem handleResponse_isError (e : Nat) (op : String) (r : Response)
    (jr : Bool) :
    (handleResponse e op r jr).isError = decide (r.statusCode ≠ e) := by
  by_cases h : r.statusCode = e
  · cases jr <;> simp [handleResponse, h, Outcome.isError]
  · simp [handleResponse, h, Outcome.isError]

theorem envelope_exact_two (k1 k2 : String) (v1 v2 : JsonValue)
    (kwargs : JsonDict) (hne : k1 ≠ k2)
    (hnodup : (dictKeys kwargs).Nodup)
    (h1 : k1 ∉ dictKeys kwargs) (h2 : k2 ∉ dictKeys kwargs) :
    dictGet (withKwargs [(k1, v1), (k2, v2)] kwargs) k1 = some v1
    ∧ dictGet (withKwargs [(k1, v1), (k2, v2)] kwargs) k2 = some v2
    ∧ (∀ k v, (k, v) ∈ kwargs →
        dictGet (withKwargs [(k1, v1), (k2, v2)] kwargs) k = some v)
    ∧ dictKeys (withKwargs [(k1, v1), (k2, v2)] kwargs)
        = [k1, k2] ++ dictKeys kwargs := by
  rw [withKwargs_eq_dictUpdate]
  refine ⟨?_, ?_, ?_, ?_⟩
  · rw [dictGet_dictUpdate_not_mem _ _ _ h1]
    simp [dictGet]
  · rw [dictGet_dictUpdate_not_mem _ _ _ h2]
    simp [dictGet, hne]
  · intro k v hm
    exact dictGet_dictUpdate_mem _ _ _ _ hnodup hm
  · rw [dictKeys_dictUpdate_disjoint _ _ hnodup ?_]
    · rfl
    · intro k hk hcontra
      have : k = k1 ∨ k = k2 := by
        simpa [dictKeys] using hcontra
      rcases this with h | h
      · exact h1 (h ▸ hk)
      · exact h2 (h ▸ hk)

/-- C1: for every gateway operation (chat completion, text completion,
embeddings, set tenant config, clear tenant config, create policy,
delete policy, list/get policies), a response whose status code equals
the expected code of that operation (200, 200, 200, 201, 204, 204, 204, 200
respectively) yields a non-error Outcome, and any other status code
yields an error Outcome, regardless of whether the response body is
JSON-parseable (the response ranges over every `parsedBody`, including
`none`). -/
theorem claim_C1_status_classification :
    ∀ r : Response,
      (ChatCompletions.createHandle r).isError = decide (r.statusCode ≠ 200)
      ∧ (Completions.createHandle r).isError = decide (r.statusCode ≠ 200)
      ∧ (Embeddings.createHandle r).isError = decide (r.statusCode ≠ 200)
      ∧ (Gateway.setSecretsManagerHandle r).isError
          = decide (r.statusCode ≠ 201)
      ∧ (Gateway.clearSecretsManagerHandle r).isError
          = decide (r.statusCode ≠ 204)
      ∧ (Policies.createHandle r).isError = decide (r.statusCode ≠ 204)
      ∧ (Policies.deleteHandle r).isError = decide (r.statusCode ≠ 204)
      ∧ (Policies.getDetailsHandle r).isError = decide (r.statusCode ≠ 200) := by
  intro r
  refine ⟨?_, ?_, ?_, ?_, ?_, ?_, ?_, ?_⟩ <;>
    simp [ChatCompletions.createHandle, Completions.createHandle,
      Embeddings.createHandle, Gateway.setSecretsManagerHandle,
      Gateway.clearSecretsManagerHandle, Policies.createHandle,
      Policies.deleteHandle, Policies.getDetailsHandle,
      handleResponse_isError]

/-- C2: constructing the Gateway with neither a credentials object nor a
pre-built api_client yields the `InvalidMultipleArguments` configuration
error, and the list of HTTP requests dispatched during construction is
empty — no network call is attempted. -/
theorem claim_C2_no_credential_source_rejected :
    ∀ verify : Option Bool,
      Gateway.init none verify none =
        (Except.error (GatewayError.invalidMultipleArguments
            ["credentials", "api_client"]
            "None of the arguments were provided."),
          ([] : List Request)) :=
  fun _ => rfl

/-- C3: for chat completion, text completion and embeddings `create`,
with extra keyword fields whose keys do not collide with the required
field names, the request envelope holds exactly the required fields plus
the extras, each under its original name with its original value, and no
field is dropped or renamed. -/
theorem claim_C3_envelope_exact_fields :
    (∀ (model : String) (messages : JsonValue) (kwargs : JsonDict),
      (dictKeys kwargs).Nodup →
      "messages" ∉ dictKeys kwargs →
      "model" ∉ dictKeys kwargs →
      dictGet (ChatCompletions.createRequestJson model messages kwargs)
          "model" = some (JsonValue.str model)
      ∧ dictGet (ChatCompletions.createRequestJson model messages kwargs)
          "messages" = some messages
      ∧ (∀ k v, (k, v) ∈ kwargs →
          dictGet (ChatCompletions.createRequestJson model messages kwargs) k
            = some v)
      ∧ dictKeys (ChatCompletions.createRequestJson model messages kwargs)
          = ["messages", "model"] ++ dictKeys kwargs)
    ∧ (∀ (model : String) (prompt : JsonValue) (kwargs : JsonDict),
      (dictKeys kwargs).Nodup →
      "prompt" ∉ dictKeys kwargs →
      "model" ∉ dictKeys kwargs →
      dictGet (Completions.createRequestJson model prompt kwargs) "model"
          = some (JsonValue.str model)
      ∧ dictGet (Completions.createRequestJson model prompt kwargs) "prompt"
          = some prompt
      ∧ (∀ k v, (k, v) ∈ kwargs →
          dictGet (Completions.createRequestJson model prompt kwargs) k
            = some v)
      ∧ dictKeys (Completions.createRequestJson model prompt kwargs)
          = ["prompt", "model"] ++ dictKeys kwargs)
    ∧ (∀ (model : String) (input : JsonValue) (kwargs : JsonDict),
      (dictKeys kwargs).Nodup →
      "input" ∉ dictKeys kwargs →
      "model" ∉ dictKeys kwargs →
      dictGet (Embeddings.createRequestJson model input kwargs) "model"
          = some (JsonValue.str model)
      ∧ dictGet (Embeddings.createRequestJson model input kwargs) "input"
          = some input
      ∧ (∀ k v, (k, v) ∈ kwargs →
          dictGet (Embeddings.createRequestJson model input kwargs) k
            = some v)
      ∧ dictKeys (Embeddings.createRequestJson model input kwargs)
          = ["input", "model"] ++ dictKeys kwargs) := by
  refine ⟨?_, ?_, ?_⟩ <;>
    · intro model payload kwargs hnodup hp hm
      have h := envelope_exact_two _ "model" payload (JsonValue.str model)
        kwargs (by decide) hnodup hp hm
      exact ⟨h.2.1, h.1, h.2.2.1, h.2.2.2⟩

/-- Witness for C3 at concrete inputs: a chat envelope with one extra
field `temperature` carries `model`, `messages` and the extra verbatim. -/
theorem claim_C3_envelope_exact_fields_witness :
    dictGet (ChatCompletions.createRequestJson "demo" (JsonValue.arr [])
        [("temperature", JsonValue.num 1)]) "model"
      = some (JsonValue.str "demo")
    ∧ dictGet (ChatCompletions.createRequestJson "demo" (JsonValue.arr [])
        [("temperature", JsonValue.num 1)]) "messages"
      = some (JsonValue.arr [])
    ∧ dictGet (ChatCompletions.createRequestJson "demo" (JsonValue.arr [])
        [("temperature", JsonValue.num 1)]) "temperature"
      = some (JsonValue.num 1)
    ∧ dictKeys (ChatCompletions.createRequestJson "demo" (JsonValue.arr [])
        [("temperature", JsonValue.num 1)])
      = ["messages", "model", "temperature"] := by
  have h := claim_C3_envelope_exact_fields.1 "demo" (JsonValue.arr [])
    [("temperature", JsonValue.num 1)] (by decide) (by decide) (by decide)
  exact ⟨h.1, h.2.1, h.2.2.1 "temperature" (JsonValue.num 1) (by simp),
    h.2.2.2⟩

/-- C4: for chat completions, text completions and embeddings, `create`
and `acreate` given the same arguments build the same request (same
envelope, endpoint URL, method and headers) and classify a received
response identically, so against an identical response they produce
identical Outcomes; only the transport mode differs. -/
theorem claim_C4_create_acreate_equivalent :
    ∀ (client : APIClient) (model : String) (payload : JsonValue)
      (kwargs : JsonDict) (r : Response),
      ((ChatCompletions.acreateDispatch client model payload kwargs).request
          = (ChatCompletions.createDispatch client model payload kwargs).request
        ∧ ChatCompletions.acreateHandle r = ChatCompletions.createHandle r)
      ∧ ((Completions.acreateDispatch client model payload kwargs).request
          = (Completions.createDispatch client model payload kwargs).request
        ∧ Completions.acreateHandle r = Completions.createHandle r)
      ∧ ((Embeddings.acreateDispatch client model payload kwargs).request
          = (Embeddings.createDispatch client model payload kwargs).request
        ∧ Embeddings.acreateHandle r = Embeddings.createHandle r) :=
  fun _ _ _ _ _ => ⟨⟨rfl, rfl⟩, ⟨rfl, rfl⟩, rfl, rfl⟩

/-- C5: `Policies.delete` classifies a 204 response — whatever its body,
including the empty unparseable one of the scenario — as the success
marker, never as a JSON-decoded value, and classifies any other status
as the error Outcome carrying expected status 204. -/
theorem claim_C5_policy_delete_success_marker :
    (∀ r : Response, r.statusCode = 204 →
      Policies.deleteHandle r = Outcome.marker "SUCCESS")
    ∧ (∀ r : Response, r.statusCode ≠ 204 →
      Policies.deleteHandle r
        = Outcome.apiError "policy deletion" 204 r.statusCode r.rawBody)
    ∧ Policies.deleteHandle ⟨204, "", none⟩ = Outcome.marker "SUCCESS" := by
  refine ⟨?_, ?_, rfl⟩
  · intro r h
    simp [Policies.deleteHandle, handleResponse, h]
  · intro r h
    simp [Policies.deleteHandle, handleResponse, h]

/-- Witness for C5: the scenario response (status 204, empty body) gives
the success marker, and a 500 response gives the error Outcome. -/
theorem claim_C5_policy_delete_success_marker_witness :
    Policies.deleteHandle ⟨204, "", none⟩ = Outcome.marker "SUCCESS"
    ∧ Policies.deleteHandle ⟨500, "boom", none⟩
      = Outcome.apiError "policy deletion" 204 500 "boom" :=
  ⟨claim_C5_policy_delete_success_marker.1 ⟨204, "", none⟩ rfl,
    claim_C5_policy_delete_success_marker.2.1 ⟨500, "boom", none⟩ (by decide)⟩

/-- C6 counterexample: the claim fails when the caller supplies the
empty string as effect. The effect value is present (`Option.isSome`),
yet `if effect:` is skipped under Python truthiness, so neither the
`Policies.create` nor the `Policies.delete` envelope carries an
`effect` field. -/
theorem claim_C6_counterexample_empty_effect :
    (some "" : Option String).isSome = true
    ∧ dictGet (Policies.createRequestJson "read" "doc1" "alice" (some ""))
        "effect" = none
    ∧ dictGet (Policies.deleteRequestJson "read" "doc1" "alice" (some ""))
        "effect" = none := by
  refine ⟨rfl, ?_, ?_⟩ <;> rfl

/-- C6 amended: for `Policies.create` and `Policies.delete`, the
`effect` field is included in the request envelope if and only if the
supplied effect is truthy — present and non-empty; when it is absent or
empty, no placeholder for `effect` is sent. -/
theorem claim_C6_effect_iff_truthy :
    ∀ (action resource subject : String) (effect : Option String),
      dictGet (Policies.createRequestJson action resource subject effect)
          "effect"
        = (if Policies.effectTruthy effect then
            some (JsonValue.str (effect.getD "")) else none)
      ∧ dictGet (Policies.deleteRequestJson action resource subject effect)
          "effect"
        = (if Policies.effectTruthy effect then
            some (JsonValue.str (effect.getD "")) else none) := by
  intro action resource subject effect
  cases effect with
  | none =>
      constructor <;>
        simp [Policies.createRequestJson, Policies.deleteRequestJson,
          Policies.effectTruthy, dictGet]
  | some e =>
      by_cases he : e = ""
      · subst he
        constructor <;>
          simp [Policies.createRequestJson, Policies.deleteRequestJson,
            Policies.effectTruthy, dictGet]
      · have hbne : (e != "") = true := by
          simpa using he
        constructor <;>
          simp [Policies.createRequestJson, Policies.deleteRequestJson,
            Policies.effectTruthy, hbne, dictSet, dictGet]

/-- C7: when a caller-supplied extra keyword field of a data-carrying
`create` has the same key as a required field, the caller-supplied value
is the one left in the dispatched envelope (Python `dict.update`
overwrites), for `model` in all three operations and for `messages` in
chat completions. -/
theorem claim_C7_kwargs_collision_precedence :
    ∀ (model : String) (payload : JsonValue) (kwargs : JsonDict)
      (v : JsonValue),
      (dictKeys kwargs).Nodup →
      (("model", v) ∈ kwargs →
        dictGet (ChatCompletions.createRequestJson model payload kwargs)
            "model" = some v
        ∧ dictGet (Completions.createRequestJson model payload kwargs)
            "model" = some v
        ∧ dictGet (Embeddings.createRequestJson model payload kwargs)
            "model" = some v)
      ∧ (("messages", v) ∈ kwargs →
        dictGet (ChatCompletions.createRequestJson model payload kwargs)
            "messages" = some v) := by
  intro model payload kwargs v hnodup
  constructor
  · intro hm
    refine ⟨?_, ?_, ?_⟩ <;>
      · simp only [ChatCompletions.createRequestJson,
          Completions.createRequestJson, Embeddings.createRequestJson,
          withKwargs_eq_dictUpdate]
        exact dictGet_dictUpdate_mem _ _ _ _ hnodup hm
  · intro hm
    simp only [ChatCompletions.createRequestJson, withKwargs_eq_dictUpdate]
    exact dictGet_dictUpdate_mem _ _ _ _ hnodup hm

/-- Witness for C7: an extra `model` entry overrides the value set from
the required `model` parameter. -/
theorem claim_C7_kwargs_collision_precedence_witness :
    dictGet (ChatCompletions.createRequestJson "m" JsonValue.null
        [("model", JsonValue.str "override")]) "model"
      = some (JsonValue.str "override") :=
  ((claim_C7_kwargs_collision_precedence "m" JsonValue.null
      [("model", JsonValue.str "override")] (JsonValue.str "override")
      (by decide)).1 (by simp)).1

/-- C8: every request dispatched by any Gateway or Policies operation —
chat, completions and embeddings in both transport modes, set and clear
secrets manager, policy create, delete and get — carries the headers
derived from the current Credential Context via `_get_headers()`. -/
theorem claim_C8_requests_carry_current_headers :
    ∀ (client : APIClient) (model : String) (payload : JsonValue)
      (kwargs : JsonDict) (secretsManager name : String)
      (action resource subject : String) (effect : Option String),
      (ChatCompletions.createDispatch client model payload
        kwargs).request.headers = client.getHeaders
      ∧ (ChatCompletions.acreateDispatch client model payload
        kwargs).request.headers = client.getHeaders
      ∧ (Completions.createDispatch client model payload
        kwargs).request.headers = client.getHeaders
      ∧ (Completions.acreateDispatch client model payload
        kwargs).request.headers = client.getHeaders
      ∧ (Embeddings.createDispatch client model payload
        kwargs).request.headers = client.getHeaders
      ∧ (Embeddings.acreateDispatch client model payload
        kwargs).request.headers = client.getHeaders
      ∧ (Gateway.setSecretsManagerDispatch client secretsManager
        name).request.headers = client.getHeaders
      ∧ (Gateway.clearSecretsManagerDispatch
        client).request.headers = client.getHeaders
      ∧ (Policies.createDispatch client action resource subject
        effect).request.headers = client.getHeaders
      ∧ (Policies.deleteDispatch client action resource subject
        effect).request.headers = client.getHeaders
      ∧ (Policies.getDetailsDispatch
        client).request.headers = client.getHeaders :=
  fun _ _ _ _ _ _ _ _ _ _ =>
    ⟨rfl, rfl, rfl, rfl, rfl, rfl, rfl, rfl, rfl, rfl, rfl⟩

/-- C9: `extract_text_from_file` returns the UTF-8 decoding (invalid
bytes ignored) of the bytes of a `text/plain` file; on a PDF whose
parsing fails it reports the error and returns `none` instead of
raising; on any other declared content type it returns `none`. -/
theorem claim_C9_extract_text_behaviour :
    (∀ f : UploadedFile, f.type = "text/plain" →
      extract_text_from_file f = (some (utf8DecodeIgnore f.getvalue), []))
    ∧ (∀ (f : UploadedFile) (e : String),
      f.type = "application/pdf" → f.pdfParse = Except.error e →
      extract_text_from_file f
        = (none, ["Error reading PDF file " ++ f.name ++ ": " ++ e]))
    ∧ (∀ f : UploadedFile,
      f.type ≠ "text/plain" → f.type ≠ "application/pdf" →
      extract_text_from_file f = (none, [])) := by
  refine ⟨?_, ?_, ?_⟩
  · intro f h
    simp [extract_text_from_file, h]
  · intro f e h hp
    simp [extract_text_from_file, h, hp]
  · intro f h1 h2
    simp [extract_text_from_file, h1, h2]

/-- Witness for C9: a two-byte ASCII text file decodes to its text, and
a failing PDF yields `none` plus one reported error. -/
theorem claim_C9_extract_text_behaviour_witness :
    extract_text_from_file
        ⟨"text/plain", "n", [104, 105], Except.ok []⟩ = (some "hi", [])
    ∧ extract_text_from_file
        ⟨"application/pdf", "n", [], Except.error "bad"⟩
      = (none, ["Error reading PDF file n: bad"]) := by
  constructor
  · have h := claim_C9_extract_text_behaviour.1
      ⟨"text/plain", "n", [104, 105], Except.ok []⟩ rfl
    rw [h]
    rfl
  · have h := claim_C9_extract_text_behaviour.2.1
      ⟨"application/pdf", "n", [], Except.error "bad"⟩ "bad" rfl rfl
    rw [h]
    rfl

/-- C10: when `Gateway.__init__` receives both a credentials object and
an api_client, the credentials argument wins: the gateway uses a fresh
client built from the credentials with the given verify setting, the
supplied api_client (whenever it differs from that fresh client) is not
the client used, and the construction result does not depend on the
supplied api_client at all. -/
theorem claim_C10_credentials_take_precedence :
    ∀ (c : Credentials) (verify : Option Bool) (ac : APIClient)
      (g : Gateway),
      (Gateway.init (some c) verify (some ac)).1 = Except.ok g →
      g.client = APIClient.fromCredentials c verify
      ∧ (ac ≠ APIClient.fromCredentials c verify → g.client ≠ ac)
      ∧ Gateway.init (some c) verify (some ac)
          = Gateway.init (some c) verify none := by
  intro c verify ac g h
  by_cases hicp : (APIClient.fromCredentials c verify).icpPlatformSpaces
  · simp [Gateway.init, hicp] at h
  · simp [Gateway.init, hicp] at h
    have hclient : g.client = APIClient.fromCredentials c verify := by
      rw [← h]
    refine ⟨hclient, ?_, rfl⟩
    intro hne hcontra
    exact hne (hclient.symm.trans hcontra).symm

/-- Witness for C10: with distinct concrete credentials and api_client,
the constructed gateway holds the client rebuilt from the credentials
and not the supplied api_client. -/
theorem claim_C10_credentials_take_precedence_witness :
    ({ client := APIClient.fromCredentials
          ⟨[("k", "v")], ⟨"", "", "", "", ""⟩, false⟩ none } : Gateway).client
        = APIClient.fromCredentials
          ⟨[("k", "v")], ⟨"", "", "", "", ""⟩, false⟩ none
    ∧ ({ client := APIClient.fromCredentials
          ⟨[("k", "v")], ⟨"", "", "", "", ""⟩, false⟩ none } : Gateway).client
        ≠ ⟨[], ⟨"", "", "", "", ""⟩, false, none⟩ := by
  have h := claim_C10_credentials_take_precedence
    ⟨[("k", "v")], ⟨"", "", "", "", ""⟩, false⟩ none
    ⟨[], ⟨"", "", "", "", ""⟩, false, none⟩
    { client := APIClient.fromCredentials
        ⟨[("k", "v")], ⟨"", "", "", "", ""⟩, false⟩ none }
    rfl
  exact ⟨h.1, h.2.1 (by decide)⟩

end SmartCity
